import Mathlib

/-!
Shallow embedding of the campus social/marketplace application's domain
model: the mongoose schemas (Club, Event, Post, MarketplaceListing), their
document methods, and the mounted express route handlers that drive them.
Identifiers (mongo ObjectIds) are modelled as naturals, timestamps as
integers (milliseconds since the epoch), and reference arrays as lists of
ids.  Each fallible handler returns `Except ApiError`, mirroring the
routes' 400/404/409 response taxonomy; a handler that returns an error
performs no store write, so "no state change on rejection" is structural.
-/

set_option maxHeartbeats 1000000
set_option maxRecDepth 100000

namespace Social

/-- Opaque user identifiers (mongo ObjectIds). -/
abbrev UserId := Nat

/-- Error taxonomy of the route handlers: 400 bad request / mongoose
validation error, 404 not found, 409 conflict.  Each carries the response
message string from the source. -/
inductive ApiError where
  | badRequest (msg : String)
  | validation (msg : String)
  | notFound (msg : String)
  | conflict (msg : String)
deriving DecidableEq, Repr

/-- JS String.prototype.trim / the mongoose trim setter: strip leading and
trailing whitespace.  Defined over the character list so that it reduces
in the kernel. -/
def jsTrim (s : String) : String :=
  String.mk (((s.data.dropWhile Char.isWhitespace).reverse.dropWhile
    Char.isWhitespace).reverse)

/-! ## Club (models/Club.ts) -/

/-- Club document: name, members and officers (arrays of User ids).
The optional description does not participate in any claim and mongoose
timestamps are store metadata, so both are omitted. -/
structure Club where
  name : String
  members : List UserId
  officers : List UserId
deriving DecidableEq, Repr

/-- ClubSchema officers element validator: `this.members.includes(officerId)`
for every officer, i.e. every officer must be a member.  Runs on every
document save (creation included). -/
def Club.officersValid (c : Club) : Bool :=
  c.officers.all fun o => c.members.contains o

/-- ClubSchema.methods.addMember: push the user onto members if absent. -/
def Club.addMember (c : Club) (u : UserId) : Club :=
  if c.members.contains u then c else { c with members := c.members ++ [u] }

/-- ClubSchema.methods.removeMember: filter the user out of members and
out of officers. -/
def Club.removeMember (c : Club) (u : UserId) : Club :=
  { c with members := c.members.filter fun m => m != u,
           officers := c.officers.filter fun o => o != u }

/-- ClubSchema.methods.addOfficer: push onto members if absent, then push
onto officers if absent. -/
def Club.addOfficer (c : Club) (u : UserId) : Club :=
  let c1 := if c.members.contains u then c
            else { c with members := c.members ++ [u] }
  if c1.officers.contains u then c1
  else { c1 with officers := c1.officers ++ [u] }

/-- ClubSchema.methods.removeOfficer: filter the user out of officers
only. -/
def Club.removeOfficer (c : Club) (u : UserId) : Club :=
  { c with officers := c.officers.filter fun o => o != u }

/-- Club creation (`new Club(data)` + `save()` in POST /api/clubs): the
schema validators run before the document is persisted — name required and
at most 100 characters (after the trim setter), and every officer must be
a member.  The unique-name index needs a collection context and is outside
the claims, so it is not modelled. -/
def createClub (name : String) (members officers : List UserId) : Except ApiError Club :=
  let c : Club := { name := jsTrim name, members := members, officers := officers }
  if c.name.length = 0 then .error (.validation "Club name is required")
  else if 100 < c.name.length then
    .error (.validation "Club name cannot exceed 100 characters")
  else if c.officersValid then .ok c
  else .error (.validation "Officers must be members of the club")

/-- DELETE /api/clubs/:id/leave in the mounted (validated) clubs router:
404 when the user is not a member, otherwise `removeMember` and respond
with the new member count. -/
def leaveClub (c : Club) (u : UserId) : Except ApiError (Club × Nat) :=
  let isMember := c.members.contains u
  if isMember then
    let c2 := c.removeMember u
    .ok (c2, c2.members.length)
  else
    .error (.notFound "User is not a member of this club")

/-- POST /api/clubs/:id/officers in the mounted (validated) clubs router:
409 when the user is already an officer, otherwise `addOfficer` and
respond with the new officer and member counts. -/
def addOfficerRoute (c : Club) (u : UserId) : Except ApiError (Club × Nat × Nat) :=
  let isAlreadyOfficer := c.officers.contains u
  if isAlreadyOfficer then
    .error (.conflict "User is already an officer of this club")
  else
    let c2 := c.addOfficer u
    .ok (c2, c2.officers.length, c2.members.length)

/-- POST /api/clubs/:id/officers in the duplicate router that is never
mounted (src/src/api/clubs.ts): calls `addOfficer` unconditionally, so a
repeat call is a no-op success. -/
def addOfficerRouteUnchecked (c : Club) (u : UserId) : Except ApiError (Club × Nat) :=
  let c2 := c.addOfficer u
  .ok (c2, c2.officers.length)

/-! ## Event (models/Event.ts, routes/events.ts, api/events.ts) -/

/-- Event document.  The optional location name and geographic point do
not participate in any claim and are omitted; attendees is the array of
attending user ids (the host is never stored in it). -/
structure Event where
  title : String
  description : String
  startTime : Int
  endTime : Int
  host : UserId
  attendees : List UserId
deriving DecidableEq, Repr

/-- EventSchema document validation as run by `save()` on a full document:
title required and at most 200 characters (after the trim setter),
description required and at most 2000 characters (no trim in the schema),
`startTime > now`, and `endTime > this.startTime`. -/
def eventSchemaCheck (now : Int) (e : Event) : Except ApiError Event :=
  if e.title.length = 0 then .error (.validation "Event title is required")
  else if 200 < e.title.length then
    .error (.validation "Title cannot exceed 200 characters")
  else if e.description.length = 0 then
    .error (.validation "Event description is required")
  else if 2000 < e.description.length then
    .error (.validation "Description cannot exceed 2000 characters")
  else if e.startTime ≤ now then
    .error (.validation "Start time must be in the future")
  else if e.endTime ≤ e.startTime then
    .error (.validation "End time must be after start time")
  else .ok e

/-- Create-event request body as checked by the mounted route.  Optional
body fields (maxAttendees, isPublic, tags, imageUrl, requiresApproval)
have checks that only fire when the field is present and touch no claim,
so they are omitted; ISO-8601 datetimes are modelled as already parsed. -/
structure CreateEventReq where
  title : String
  description : String
  location : String
  startTime : Int
  endTime : Int
  host : UserId
deriving DecidableEq, Repr

/-- validateCreateEvent (validation/events.ts): express-validator chain of
the mounted POST /api/events — title 3 to 100 characters after trim,
description 10 to 1000 after trim, endTime strictly after startTime
(validateDateTimeAfter), location 3 to 200 after trim.  Returns the list
of failure messages; the request passes when the list is empty. -/
def validateCreateEvent (r : CreateEventReq) : List String :=
  (if (jsTrim r.title).length < 3 ∨ 100 < (jsTrim r.title).length then
    ["Title must be between 3 and 100 characters"] else []) ++
  (if (jsTrim r.description).length < 10 ∨ 1000 < (jsTrim r.description).length then
    ["Description must be between 10 and 1000 characters"] else []) ++
  (if r.endTime ≤ r.startTime then
    ["endTime must be after startTime"] else []) ++
  (if (jsTrim r.location).length < 3 ∨ 200 < (jsTrim r.location).length then
    ["Location must be between 3 and 200 characters"] else [])

/-- POST /api/events on the mounted (validated) events router: the
express-validator chain runs first (handleValidationErrors responds 400 on
any failure), then the handler's own `startTime > now` business check,
then `new Event(eventData).save()` runs the schema validation.  The
`location` body field has no schema path and is dropped by mongoose strict
mode. -/
def createEvent (now : Int) (r : CreateEventReq) : Except ApiError Event :=
  if validateCreateEvent r ≠ [] then .error (.badRequest "Validation failed")
  else if r.startTime ≤ now then
    .error (.badRequest "Start time must be in the future")
  else
    eventSchemaCheck now
      { title := jsTrim r.title, description := r.description,
        startTime := r.startTime, endTime := r.endTime,
        host := r.host, attendees := [] }

/-- Update-event request body: every field optional; absent fields are not
written and not validated. -/
structure UpdateEventReq where
  title : Option String := none
  description : Option String := none
  startTime : Option Int := none
  endTime : Option Int := none
deriving DecidableEq, Repr

/-- PUT /api/events/:id (src/src/api/events.ts): `findByIdAndUpdate` with
`runValidators: true`.  Mongoose update validation runs a path validator
only when that path is present in the update, and the validator does not
see the stored document.  The endTime validator's reference to
`this.startTime` is therefore resolved charitably to the startTime of the
post-update document (the most permissive reading; in mongoose itself the
document context is absent on updates, which can only reject more updates
than modelled here, never accept more). -/
def updateEvent (now : Int) (stored : Event) (upd : UpdateEventReq) : Except ApiError Event :=
  let newStart := upd.startTime.getD stored.startTime
  if upd.title.any fun t => decide ((jsTrim t).length = 0) then
    .error (.validation "Event title is required")
  else if upd.title.any fun t => decide (200 < (jsTrim t).length) then
    .error (.validation "Title cannot exceed 200 characters")
  else if upd.description.any fun d => decide (d.length = 0) then
    .error (.validation "Event description is required")
  else if upd.description.any fun d => decide (2000 < d.length) then
    .error (.validation "Description cannot exceed 2000 characters")
  else if upd.startTime.any fun s => decide (s ≤ now) then
    .error (.validation "Start time must be in the future")
  else if upd.endTime.any fun e => decide (e ≤ newStart) then
    .error (.validation "End time must be after start time")
  else
    .ok { stored with
          title := (upd.title.map jsTrim).getD stored.title,
          description := upd.description.getD stored.description,
          startTime := newStart,
          endTime := upd.endTime.getD stored.endTime }

/-- POST /api/events/:id/attend on the mounted (validated) events router:
400 when the event has already started, 409 when the user is already in
attendees, 400 when the user is the host; otherwise push the user onto
attendees and respond with the new attendee count. -/
def attendEvent (now : Int) (e : Event) (u : UserId) : Except ApiError (Event × Nat) :=
  if e.startTime ≤ now then
    .error (.badRequest "Cannot attend event that has already started")
  else if e.attendees.contains u then
    .error (.conflict "User is already attending this event")
  else if e.host = u then
    .error (.badRequest "Event host is automatically attending")
  else
    let e2 := { e with attendees := e.attendees ++ [u] }
    .ok (e2, e2.attendees.length)

/-! ## Post (models/Post.ts, api/posts.ts) -/

/-- Post document: content, author and the likes array.  Comments and the
optional image do not participate in any claim and are omitted. -/
structure Post where
  content : String
  author : UserId
  likes : List UserId
deriving DecidableEq, Repr

/-- PostSchema.methods.isLikedBy: `this.likes.some(id => id.equals(userId))`. -/
def Post.isLikedBy (p : Post) (u : UserId) : Bool :=
  p.likes.contains u

/-- PostSchema.methods.addLike: push the user onto likes if absent,
otherwise return the document unchanged. -/
def Post.addLike (p : Post) (u : UserId) : Post :=
  if p.likes.contains u then p else { p with likes := p.likes ++ [u] }

/-- PostSchema.methods.removeLike: filter the user out of likes. -/
def Post.removeLike (p : Post) (u : UserId) : Post :=
  { p with likes := p.likes.filter fun l => l != u }

/-- PostSchema.methods.toggleLike: removeLike when the user has liked,
addLike otherwise. -/
def Post.toggleLike (p : Post) (u : UserId) : Post :=
  if p.isLikedBy u then p.removeLike u else p.addLike u

/-- POST /api/posts/:id/like (src/src/api/posts.ts): toggle, then respond
with the resulting liked state (isLikedBy after the toggle) and the
resulting like count. -/
def toggleLikeRoute (p : Post) (u : UserId) : Post × Bool × Nat :=
  let p2 := p.toggleLike u
  (p2, p2.isLikedBy u, p2.likes.length)

/-! ## MarketplaceListing (models/MarketplaceListing.ts, routes/marketplace.ts) -/

/-- Listing category enum. -/
inductive ListingCategory where
  | books | electronics | furniture | other
deriving DecidableEq, Repr

/-- Marketplace listing document.  Price is modelled as an integer number
of cents; no claim does price arithmetic. -/
structure Listing where
  title : String
  description : String
  price : Int
  seller : UserId
  imageUrls : List String
  category : ListingCategory
  isAvailable : Bool
deriving DecidableEq, Repr

/-- MarketplaceListingSchema.methods.markAsSold: set isAvailable to false. -/
def Listing.markAsSold (l : Listing) : Listing :=
  { l with isAvailable := false }

/-- MarketplaceListingSchema.methods.markAsAvailable: set isAvailable to
true. -/
def Listing.markAsAvailable (l : Listing) : Listing :=
  { l with isAvailable := true }

/-- POST /api/listings/:id/sold on the mounted marketplace router: 409
when the listing is already unavailable (no mutation), otherwise
`markAsSold` and respond with the resulting isAvailable flag. -/
def markSoldRoute (l : Listing) : Except ApiError (Listing × Bool) :=
  if l.isAvailable then
    let l2 := l.markAsSold
    .ok (l2, l2.isAvailable)
  else
    .error (.conflict "Listing is already marked as sold")

/-! ## Pagination (middleware/validation.ts and every list route) -/

/-- Parsed pagination query parameters (after express-validator toInt). -/
structure PaginationQuery where
  page : Option Nat := none
  limit : Option Nat := none
deriving DecidableEq, Repr

/-- validatePagination middleware: page, when present, must be an integer
at least 1; limit, when present, an integer between 1 and 100. -/
def validatePagination (q : PaginationQuery) : Bool :=
  (q.page.all fun p => decide (1 ≤ p)) &&
  (q.limit.all fun l => decide (1 ≤ l ∧ l ≤ 100))

/-- JS `parseInt(x) || d`: an absent (NaN) or zero value falls back to the
default. -/
def orDefault (v : Option Nat) (d : Nat) : Nat :=
  match v with
  | none => d
  | some 0 => d
  | some p => p

/-- Pagination response object of every list route. -/
structure Pagination where
  page : Nat
  limit : Nat
  total : Nat
  totalPages : Nat
  hasNext : Bool
  hasPrev : Bool
deriving DecidableEq, Repr

/-- Pagination computation shared by the list routes (GET /api/events,
GET /api/listings, GET /api/clubs): `page = parseInt(page) || 1`,
`limit = parseInt(limit) || 10`, `totalPages = Math.ceil(total / limit)`
(on naturals with limit > 0 this is `(total + limit - 1) / limit`),
`hasNext = page < totalPages`, `hasPrev = page > 1`. -/
def paginate (q : PaginationQuery) (total : Nat) : Pagination :=
  let page := orDefault q.page 1
  let limit := orDefault q.limit 10
  let totalPages := (total + limit - 1) / limit
  { page := page, limit := limit, total := total, totalPages := totalPages,
    hasNext := decide (page < totalPages), hasPrev := decide (1 < page) }

/-! ## Helper lemmas -/

/-- The schema's officersValid check is exactly officers ⊆ members. -/
theorem officersValid_iff (c : Club) :
    c.officersValid = true ↔ ∀ u, u ∈ c.officers → u ∈ c.members := by
  simp [Club.officersValid]

theorem mem_addOfficer_members (c : Club) (u x : UserId) (hx : x ∈ c.members) :
    x ∈ (c.addOfficer u).members := by
  simp only [Club.addOfficer]
  split <;> split <;> simp_all

theorem self_mem_addOfficer_members (c : Club) (u : UserId) :
    u ∈ (c.addOfficer u).members := by
  simp only [Club.addOfficer]
  split <;> split <;> simp_all

theorem self_mem_addOfficer_officers (c : Club) (u : UserId) :
    u ∈ (c.addOfficer u).officers := by
  simp only [Club.addOfficer]
  split <;> split <;> simp_all

theorem mem_addOfficer_officers (c : Club) (u x : UserId)
    (hx : x ∈ (c.addOfficer u).officers) : x ∈ c.officers ∨ x = u := by
  simp only [Club.addOfficer] at hx
  split at hx <;> split at hx <;> simp_all

end Social

namespace Social

/-- C1: every Club mutator — addMember, removeMember, addOfficer,
removeOfficer — preserves the invariant that the set of officers is a
subset of the set of members (the schema's officersValid check), club
creation succeeds only when the invariant holds of the created club, and
addOfficer applied to any user (a non-member in particular) results in
that user being present in both members and officers. -/
theorem club_mutators_preserve_officers_subset :
    (∀ (c : Club) (u : UserId), c.officersValid = true →
      (c.addMember u).officersValid = true) ∧
    (∀ (c : Club) (u : UserId), c.officersValid = true →
      (c.removeMember u).officersValid = true) ∧
    (∀ (c : Club) (u : UserId), c.officersValid = true →
      (c.addOfficer u).officersValid = true) ∧
    (∀ (c : Club) (u : UserId), c.officersValid = true →
      (c.removeOfficer u).officersValid = true) ∧
    (∀ (name : String) (ms os : List UserId) (c : Club),
      createClub name ms os = .ok c → c.officersValid = true) ∧
    (∀ (c : Club) (u : UserId),
      u ∈ (c.addOfficer u).members ∧ u ∈ (c.addOfficer u).officers) := by
  refine ⟨?_, ?_, ?_, ?_, ?_, ?_⟩
  · intro c u h
    rw [officersValid_iff] at h ⊢
    unfold Club.addMember
    split
    · exact h
    · intro x hx
      simp only [List.mem_append]
      exact Or.inl (h x hx)
  · intro c u h
    rw [officersValid_iff] at h ⊢
    intro x hx
    simp only [Club.removeMember, List.mem_filter] at hx ⊢
    exact ⟨h x hx.1, hx.2⟩
  · intro c u h
    rw [officersValid_iff] at h ⊢
    intro x hx
    rcases mem_addOfficer_officers c u x hx with hold | heq
    · exact mem_addOfficer_members c u x (h x hold)
    · subst heq
      exact self_mem_addOfficer_members c x
  · intro c u h
    rw [officersValid_iff] at h ⊢
    intro x hx
    simp only [Club.removeOfficer, List.mem_filter] at hx
    exact h x hx.1
  · intro name ms os c hok
    simp only [createClub] at hok
    split at hok
    · exact absurd hok (by simp)
    · split at hok
      · exact absurd hok (by simp)
      · split at hok
        · rename_i hvalid
          cases hok
          exact hvalid
        · exact absurd hok (by simp)
  · intro c u
    exact ⟨self_mem_addOfficer_members c u, self_mem_addOfficer_officers c u⟩

/-- Witness for C1 at a concrete club: {members [1], officers [1]} with
user 2. -/
theorem club_mutators_preserve_officers_subset_witness :
    (Club.mk "c" [1] [1]).officersValid = true ∧
    ((Club.mk "c" [1] [1]).addOfficer 2).officersValid = true :=
  ⟨by decide,
   club_mutators_preserve_officers_subset.2.2.1 (Club.mk "c" [1] [1]) 2 (by decide)⟩

/-- C4 counterexample: on the mounted officers endpoint, re-adding user 7,
already an officer of the club, is rejected with Conflict — an error, not
a no-op success. -/
theorem add_officer_readd_conflict_cex :
    addOfficerRoute (Club.mk "chess" [7] [7]) 7 =
      .error (.conflict "User is already an officer of this club") := rfl

/-- Applying addOfficer to a user who is already in both lists changes
nothing. -/
theorem addOfficer_noop (c : Club) (u : UserId) (hm : u ∈ c.members)
    (ho : u ∈ c.officers) : c.addOfficer u = c := by
  simp [Club.addOfficer, hm, ho]

/-- C4 amended: the Club.addOfficer mutator is idempotent — it ensures the
user is a member, then an officer; re-applying it changes nothing, and on
a club satisfying the officers-subset invariant applying it to an existing
officer is a no-op, so the unmounted officers route replies with a no-op
success — but the mounted (validated) officers endpoint rejects re-adding
an existing officer with Conflict. -/
theorem add_officer_idempotent_method_route_conflict :
    (∀ (c : Club) (u : UserId), (c.addOfficer u).addOfficer u = c.addOfficer u) ∧
    (∀ (c : Club) (u : UserId),
      u ∈ (c.addOfficer u).members ∧ u ∈ (c.addOfficer u).officers) ∧
    (∀ (c : Club) (u : UserId), c.officersValid = true →
      u ∈ c.officers → c.addOfficer u = c) ∧
    (∀ (c : Club) (u : UserId), c.officersValid = true →
      u ∈ c.officers →
      addOfficerRouteUnchecked c u = .ok (c, c.officers.length)) ∧
    (∀ (c : Club) (u : UserId), u ∈ c.officers →
      addOfficerRoute c u =
        .error (.conflict "User is already an officer of this club")) := by
  have noop : ∀ (c : Club) (u : UserId), c.officersValid = true →
      u ∈ c.officers → c.addOfficer u = c := fun c u hv ho =>
    addOfficer_noop c u ((officersValid_iff c).1 hv u ho) ho
  refine ⟨?_, ?_, noop, ?_, ?_⟩
  · intro c u
    exact addOfficer_noop (c.addOfficer u) u (self_mem_addOfficer_members c u)
      (self_mem_addOfficer_officers c u)
  · intro c u
    exact ⟨self_mem_addOfficer_members c u, self_mem_addOfficer_officers c u⟩
  · intro c u hv ho
    simp [addOfficerRouteUnchecked, noop c u hv ho]
  · intro c u ho
    simp [addOfficerRoute, ho]

/-- Witness for C4 amended at the club {members [3], officers [3]} and
user 3. -/
theorem add_officer_idempotent_method_route_conflict_witness :
    (Club.mk "c" [3] [3]).officersValid = true ∧
    3 ∈ (Club.mk "c" [3] [3]).officers ∧
    (Club.mk "c" [3] [3]).addOfficer 3 = Club.mk "c" [3] [3] :=
  ⟨by decide, by decide,
   add_officer_idempotent_method_route_conflict.2.2.1 (Club.mk "c" [3] [3]) 3
     (by decide) (by decide)⟩

/-- C5: on the mounted leave endpoint, a member leaving is removed from
both members and officers; a non-member leaving gets a not-found error and
no state is written. -/
theorem leave_club_removes_member_and_officer (c : Club) (u : UserId) :
    (u ∈ c.members →
      leaveClub c u = .ok (c.removeMember u, (c.removeMember u).members.length) ∧
      u ∉ (c.removeMember u).members ∧ u ∉ (c.removeMember u).officers) ∧
    (u ∉ c.members →
      leaveClub c u = .error (.notFound "User is not a member of this club")) := by
  constructor
  · intro h
    refine ⟨by simp [leaveClub, h], ?_, ?_⟩ <;> simp [Club.removeMember]
  · intro h
    simp [leaveClub, h]

/-- Witness for C5: user 2 leaves the club {members [1, 2], officers [2]}
and is removed from both lists; user 9 is not a member and gets not-found. -/
theorem leave_club_removes_member_and_officer_witness :
    leaveClub (Club.mk "c" [1, 2] [2]) 2 = .ok (Club.mk "c" [1] [], 1) ∧
    leaveClub (Club.mk "c" [1, 2] [2]) 9 =
      .error (.notFound "User is not a member of this club") :=
  ⟨(((leave_club_removes_member_and_officer (Club.mk "c" [1, 2] [2]) 2).1
      (by decide)).1).trans rfl,
   (leave_club_removes_member_and_officer (Club.mk "c" [1, 2] [2]) 9).2 (by decide)⟩

/-- C3: attendEvent is not idempotent — on an upcoming event with no
attendees, a non-host user's first call succeeds with attendee count 1,
and a second sequential call by the same user is rejected with Conflict,
leaving the attendee list (hence the count) at 1. -/
theorem attend_event_second_call_conflicts (now : Int) (e : Event) (u : UserId)
    (hup : now < e.startTime) (hempty : e.attendees = []) (hhost : u ≠ e.host) :
    attendEvent now e u = .ok ({ e with attendees := [u] }, 1) ∧
    attendEvent now { e with attendees := [u] } u =
      .error (.conflict "User is already attending this event") := by
  constructor
  · simp [attendEvent, hempty, not_le.mpr hup, Ne.symm hhost]
  · simp [attendEvent, not_le.mpr hup]

/-- Witness for C3 at a concrete upcoming event with host 1 and user 2. -/
theorem attend_event_second_call_conflicts_witness :
    attendEvent 0 (Event.mk "t" "party" 10 20 1 []) 2 =
      .ok (Event.mk "t" "party" 10 20 1 [2], 1) ∧
    attendEvent 0 (Event.mk "t" "party" 10 20 1 [2]) 2 =
      .error (.conflict "User is already attending this event") :=
  attend_event_second_call_conflicts 0 (Event.mk "t" "party" 10 20 1 [])
    2 (by decide) rfl (by decide)

/-- Splitting a list length into the occurrences of u and the rest. -/
theorem length_filter_ne_add_count (l : List UserId) (u : UserId) :
    (l.filter fun x => x != u).length + l.count u = l.length := by
  have h1 : (l.filter fun x => x != u).length = l.countP fun x => x != u :=
    (List.countP_eq_length_filter _ l).symm
  have h2 : l.length = l.count u + l.countP (fun x => x != u) := by
    simpa [List.count, bne] using
      List.length_eq_countP_add_countP (fun x => x == u) l
  omega

/-- C6: toggleLike is its own inverse — on a post whose likes list holds
the user at most once (likes is a set of user references), toggling twice
restores the original liked-state and like count, each toggle flips the
liked-state, and the like endpoint reports exactly the post-toggle state. -/
theorem toggle_like_self_inverse (p : Post) (u : UserId)
    (hset : p.likes.count u ≤ 1) :
    ((p.toggleLike u).toggleLike u).isLikedBy u = p.isLikedBy u ∧
    ((p.toggleLike u).toggleLike u).likes.length = p.likes.length ∧
    (p.toggleLike u).isLikedBy u = !(p.isLikedBy u) ∧
    (toggleLikeRoute p u).2.1 = !(p.isLikedBy u) := by
  by_cases hmem : u ∈ p.likes
  · have hlen := length_filter_ne_add_count p.likes u
    have hcount : p.likes.count u = 1 := by
      have := List.count_pos_iff.mpr hmem
      omega
    refine ⟨?_, ?_, ?_, ?_⟩ <;>
      simp [Post.toggleLike, Post.isLikedBy, Post.removeLike, Post.addLike,
        toggleLikeRoute, hmem, List.mem_filter, List.filter_append]
    omega
  · have hfilter : p.likes.filter (fun x => x != u) = p.likes :=
      List.filter_eq_self.mpr fun x hx => by
        simp
        exact fun e => hmem (e ▸ hx)
    refine ⟨?_, ?_, ?_, ?_⟩ <;>
      simp [Post.toggleLike, Post.isLikedBy, Post.removeLike, Post.addLike,
        toggleLikeRoute, hmem, List.filter_append, hfilter]

/-- Witness for C6 at the post with likes [5] and user 5. -/
theorem toggle_like_self_inverse_witness :
    (Post.mk "hi" 1 [5]).likes.count 5 ≤ 1 ∧
    (((Post.mk "hi" 1 [5]).toggleLike 5).toggleLike 5).likes.length =
      (Post.mk "hi" 1 [5]).likes.length :=
  ⟨by decide, (toggle_like_self_inverse (Post.mk "hi" 1 [5]) 5 (by decide)).2.1⟩

/-- C10: markAsSold and markAsAvailable modify only the isAvailable flag —
title, description, price, seller, imageUrls and category are unchanged —
and the mounted sold endpoint rejects an already-unavailable listing with
Conflict, writing nothing. -/
theorem mark_sold_frame_and_conflict (l : Listing) :
    l.markAsSold.title = l.title ∧ l.markAsSold.description = l.description ∧
    l.markAsSold.price = l.price ∧ l.markAsSold.seller = l.seller ∧
    l.markAsSold.imageUrls = l.imageUrls ∧ l.markAsSold.category = l.category ∧
    l.markAsSold.isAvailable = false ∧
    l.markAsAvailable.title = l.title ∧
    l.markAsAvailable.description = l.description ∧
    l.markAsAvailable.price = l.price ∧ l.markAsAvailable.seller = l.seller ∧
    l.markAsAvailable.imageUrls = l.imageUrls ∧
    l.markAsAvailable.category = l.category ∧
    l.markAsAvailable.isAvailable = true ∧
    (l.isAvailable = false →
      markSoldRoute l = .error (.conflict "Listing is already marked as sold")) ∧
    (l.isAvailable = true → markSoldRoute l = .ok (l.markAsSold, false)) := by
  refine ⟨rfl, rfl, rfl, rfl, rfl, rfl, rfl, rfl, rfl, rfl, rfl, rfl, rfl, rfl,
    ?_, ?_⟩
  · intro h
    simp [markSoldRoute, h]
  · intro h
    simp [markSoldRoute, h, Listing.markAsSold]

/-- Witness for C10 at a concrete unavailable listing (conflict branch)
and a concrete available listing (success branch). -/
theorem mark_sold_frame_and_conflict_witness :
    markSoldRoute (Listing.mk "Lamp" "desk lamp" 1500 4 [] .furniture false) =
      .error (.conflict "Listing is already marked as sold") ∧
    markSoldRoute (Listing.mk "Lamp" "desk lamp" 1500 4 [] .furniture true) =
      .ok ((Listing.mk "Lamp" "desk lamp" 1500 4 [] .furniture true).markAsSold,
        false) :=
  ⟨(mark_sold_frame_and_conflict
      (Listing.mk "Lamp" "desk lamp" 1500 4 [] .furniture false)).2.2.2.2.2.2.2.2.2.2.2.2.2.2.1 rfl,
   (mark_sold_frame_and_conflict
      (Listing.mk "Lamp" "desk lamp" 1500 4 [] .furniture true)).2.2.2.2.2.2.2.2.2.2.2.2.2.2.2 rfl⟩

/-- Characterisation of a successful schema validation: the document is
returned as-is and all checked constraints hold. -/
theorem eventSchemaCheck_ok (now : Int) (ev e : Event)
    (h : eventSchemaCheck now ev = .ok e) :
    e = ev ∧ now < ev.startTime ∧ ev.startTime < ev.endTime := by
  simp only [eventSchemaCheck] at h
  repeat' split at h
  any_goals exact Except.noConfusion h
  cases h
  refine ⟨rfl, by omega, by omega⟩

/-- C2 counterexample: the stored event has startTime 10 and endTime 20;
an update supplying only startTime 30 succeeds (only supplied paths are
validated), and the resulting stored event violates endTime > startTime. -/
theorem event_update_breaks_time_order_cex :
    updateEvent 0 (Event.mk "Party" "free pizza" 10 20 1 [])
      { startTime := some 30 } = .ok (Event.mk "Party" "free pizza" 30 20 1 []) ∧
    ¬ ((Event.mk "Party" "free pizza" 30 20 1 []).startTime <
       (Event.mk "Party" "free pizza" 30 20 1 []).endTime) :=
  ⟨rfl, by decide⟩

/-- C2 amended: endTime > startTime holds after every successful create,
and after every successful update that supplies endTime or leaves both
time fields untouched; an update supplying only startTime is never
checked against the stored endTime and can break the ordering. -/
theorem event_time_order_create_and_guarded_update :
    (∀ (now : Int) (r : CreateEventReq) (e : Event),
      createEvent now r = .ok e → e.startTime < e.endTime) ∧
    (∀ (now : Int) (stored : Event) (upd : UpdateEventReq) (e : Event),
      stored.startTime < stored.endTime →
      (upd.startTime = none ∨ upd.endTime ≠ none) →
      updateEvent now stored upd = .ok e → e.startTime < e.endTime) := by
  constructor
  · intro now r e hok
    simp only [createEvent] at hok
    split at hok
    · exact Except.noConfusion hok
    · split at hok
      · exact Except.noConfusion hok
      · obtain ⟨he, _h1, h2⟩ := eventSchemaCheck_ok _ _ _ hok
        subst he
        exact h2
  · intro now stored upd e hinv hguard hok
    obtain ⟨ut, ud, us, ue⟩ := upd
    simp only [updateEvent] at hok
    repeat' split at hok
    any_goals exact Except.noConfusion hok
    rename_i h1 h2 h3 h4 h5 h6
    cases hok
    rcases ue with _ | x
    · rcases hguard with hs | hne
      · simp only at hs
        subst hs
        simpa using hinv
      · exact absurd rfl hne
    · simp only [Option.any_some, decide_eq_true_eq] at h6
      simpa using lt_of_not_le h6

/-- Witness for C2 amended: a concrete successful create and a concrete
successful update that supplies endTime both satisfy the time ordering. -/
theorem event_time_order_create_and_guarded_update_witness :
    (Event.mk "Spring Concert" "live music on the quad" 100 200 1 []).startTime <
      (Event.mk "Spring Concert" "live music on the quad" 100 200 1 []).endTime ∧
    (Event.mk "t" "party" 10 25 1 []).startTime <
      (Event.mk "t" "party" 10 25 1 []).endTime :=
  ⟨event_time_order_create_and_guarded_update.1 0
      (CreateEventReq.mk "Spring Concert" "live music on the quad" "Main Quad"
        100 200 1)
      (Event.mk "Spring Concert" "live music on the quad" 100 200 1 []) rfl,
   event_time_order_create_and_guarded_update.2 0
      (Event.mk "t" "party" 10 20 1 []) { endTime := some 25 }
      (Event.mk "t" "party" 10 25 1 []) (by decide) (by decide) rfl⟩

/-- C9 counterexample: the stored event is past-dated (startTime 10,
now 100); an update that supplies a past startTime 50 is rejected with the
start-time validation error, contradicting the claim that updates
supplying startTime are not checked against now. -/
theorem update_past_start_rejected_cex :
    updateEvent 100 (Event.mk "t" "party" 10 200 1 []) { startTime := some 50 } =
      .error (.validation "Start time must be in the future") := rfl

/-- C9 amended: runValidators re-runs path validators on update, so the
startTime-in-the-future rule is enforced exactly on updates that supply
startTime: an empty update and a title-only update succeed no matter how
far in the past the stored event lies, while an update supplying a past
startTime is rejected. -/
theorem start_time_checked_only_on_supplied_start (now : Int) (stored : Event) :
    updateEvent now stored {} = .ok stored ∧
    (∀ t : String, 0 < (jsTrim t).length → (jsTrim t).length ≤ 200 →
      updateEvent now stored { title := some t } =
        .ok { stored with title := jsTrim t }) ∧
    (∀ s : Int, s ≤ now →
      updateEvent now stored { startTime := some s } =
        .error (.validation "Start time must be in the future")) := by
  refine ⟨rfl, ?_, ?_⟩
  · intro t h1 h2
    have h1n : ¬ (jsTrim t).length = 0 := by omega
    have h2n : ¬ 200 < (jsTrim t).length := by omega
    simp [updateEvent, h1n, h2n]
  · intro s hs
    simp [updateEvent, hs]

/-- Witness for C9 amended: a past-dated stored event (startTime 10,
now 100) accepts an empty update and a title-only update, and rejects an
update supplying past startTime 50. -/
theorem start_time_checked_only_on_supplied_start_witness :
    updateEvent 100 (Event.mk "t" "party" 10 200 1 []) {} =
      .ok (Event.mk "t" "party" 10 200 1 []) ∧
    updateEvent 100 (Event.mk "t" "party" 10 200 1 []) { title := some "New title" } =
      .ok (Event.mk "New title" "party" 10 200 1 []) ∧
    updateEvent 100 (Event.mk "t" "party" 10 200 1 []) { startTime := some 50 } =
      .error (.validation "Start time must be in the future") :=
  ⟨(start_time_checked_only_on_supplied_start 100
      (Event.mk "t" "party" 10 200 1 [])).1,
   ((start_time_checked_only_on_supplied_start 100
      (Event.mk "t" "party" 10 200 1 [])).2.1 "New title" (by decide)
        (by decide)).trans rfl,
   (start_time_checked_only_on_supplied_start 100
      (Event.mk "t" "party" 10 200 1 [])).2.2 50 (by decide)⟩

/-- JS Math.ceil(total / limit) on naturals, written as the code computes
the page count, is the least k with total ≤ limit * k. -/
theorem ceil_div_le_iff (total limit k : Nat) (hl : 1 ≤ limit) :
    (total + limit - 1) / limit ≤ k ↔ total ≤ limit * k := by
  rw [Nat.div_le_iff_le_mul_add_pred hl]
  omega

/-- A present nonzero value wins over the JS falsy-default. -/
theorem orDefault_some_pos (l d : Nat) (h : 1 ≤ l) : orDefault (some l) d = l := by
  cases l with
  | zero => omega
  | succ n => rfl

/-- C7: for a query passing validatePagination (page ≥ 1, limit between 1
and 100) over a dataset of size total, the pagination object defaults page
to 1 and limit to 10, keeps limit within 1 to 100, and satisfies
totalPages = ceil(total / limit) — characterised as the least k with
total ≤ limit * k — with hasNext = (page < totalPages) and
hasPrev = (page > 1). -/
theorem pagination_object_correct (q : PaginationQuery) (total : Nat)
    (hq : validatePagination q = true) :
    (paginate q total).page = orDefault q.page 1 ∧
    (paginate q total).limit = orDefault q.limit 10 ∧
    (q.page = none → (paginate q total).page = 1) ∧
    (q.limit = none → (paginate q total).limit = 10) ∧
    1 ≤ (paginate q total).limit ∧ (paginate q total).limit ≤ 100 ∧
    (paginate q total).total = total ∧
    (∀ k : Nat, (paginate q total).totalPages ≤ k ↔
      total ≤ (paginate q total).limit * k) ∧
    ((paginate q total).hasNext = true ↔
      (paginate q total).page < (paginate q total).totalPages) ∧
    ((paginate q total).hasPrev = true ↔ 1 < (paginate q total).page) := by
  have hlim : 1 ≤ orDefault q.limit 10 ∧ orDefault q.limit 10 ≤ 100 := by
    rcases q with ⟨qp, ql⟩
    rcases ql with _ | l
    · simp [orDefault]
    · simp only [validatePagination, Bool.and_eq_true, Option.all_some,
        decide_eq_true_eq] at hq
      obtain ⟨h1, h2⟩ := hq.2
      rw [orDefault_some_pos l 10 h1]
      exact ⟨h1, h2⟩
  refine ⟨rfl, rfl, fun h => by simp [paginate, h, orDefault],
    fun h => by simp [paginate, h, orDefault], hlim.1, hlim.2, rfl,
    fun k => ceil_div_le_iff total _ k hlim.1, by simp [paginate],
    by simp [paginate]⟩

/-- Witness for C7 at the query {page 2, limit 10} over 25 documents:
3 total pages, hasNext false at... page 2 < 3 so hasNext holds. -/
theorem pagination_object_correct_witness :
    validatePagination (PaginationQuery.mk (some 2) (some 10)) = true ∧
    ((paginate (PaginationQuery.mk (some 2) (some 10)) 25).totalPages ≤ 3 ↔
      25 ≤ (paginate (PaginationQuery.mk (some 2) (some 10)) 25).limit * 3) ∧
    ((paginate (PaginationQuery.mk (some 2) (some 10)) 25).hasNext = true ↔
      (paginate (PaginationQuery.mk (some 2) (some 10)) 25).page <
        (paginate (PaginationQuery.mk (some 2) (some 10)) 25).totalPages) :=
  ⟨by decide,
   (pagination_object_correct (PaginationQuery.mk (some 2) (some 10)) 25
      (by decide)).2.2.2.2.2.2.2.1 3,
   (pagination_object_correct (PaginationQuery.mk (some 2) (some 10)) 25
      (by decide)).2.2.2.2.2.2.2.2.1⟩

/-- validateCreateEvent passes exactly when every checked field is inside
the validator bounds. -/
theorem validateCreateEvent_eq_nil_iff (r : CreateEventReq) :
    validateCreateEvent r = [] ↔
      (3 ≤ (jsTrim r.title).length ∧ (jsTrim r.title).length ≤ 100 ∧
       10 ≤ (jsTrim r.description).length ∧
       (jsTrim r.description).length ≤ 1000 ∧
       r.startTime < r.endTime ∧
       3 ≤ (jsTrim r.location).length ∧ (jsTrim r.location).length ≤ 200) := by
  unfold validateCreateEvent
  split_ifs <;> simp_all <;> omega

/-- C8 counterexample: a title of 101 characters lies inside the claimed
3-to-200 range (and the schema accepts it), yet the mounted route field
validation rejects the request with the title message; a description of
1200 characters lies inside the claimed 2000-character bound yet is
rejected with the description message. -/
theorem create_event_title_bounds_cex :
    (3 ≤ (String.mk (List.replicate 101 'a')).length ∧
      (String.mk (List.replicate 101 'a')).length ≤ 200) ∧
    validateCreateEvent
      (CreateEventReq.mk (String.mk (List.replicate 101 'a'))
        "a fine party with pizza" "Main Quad" 100 200 1) =
      ["Title must be between 3 and 100 characters"] ∧
    createEvent 0
      (CreateEventReq.mk (String.mk (List.replicate 101 'a'))
        "a fine party with pizza" "Main Quad" 100 200 1) =
      .error (.badRequest "Validation failed") ∧
    ((String.mk (List.replicate 1200 'b')).length ≤ 2000 ∧
     validateCreateEvent
      (CreateEventReq.mk "Party" (String.mk (List.replicate 1200 'b'))
        "Main Quad" 100 200 1) =
      ["Description must be between 10 and 1000 characters"]) ∧
    eventSchemaCheck 0
      (Event.mk (String.mk (List.replicate 101 'a')) "a fine party with pizza"
        100 200 1 []) =
      .ok (Event.mk (String.mk (List.replicate 101 'a'))
        "a fine party with pizza" 100 200 1 []) :=
  ⟨⟨by decide, by decide⟩, rfl, rfl, ⟨by decide, rfl⟩, rfl⟩

/-- C8 amended: on the mounted create-event route, field validation
accepts titles of 3 to 100 characters and descriptions of 10 to 1000
characters after trim, rejecting anything outside those bounds; the Event
schema alone accepts any nonempty title up to 200 characters and nonempty
description up to 2000 characters, so lengths of 101 to 200 and 1001 to
2000 pass the schema but fail the route validator. -/
theorem create_event_field_bounds (r : CreateEventReq) (now : Int) (e : Event) :
    (validateCreateEvent r = [] ↔
      (3 ≤ (jsTrim r.title).length ∧ (jsTrim r.title).length ≤ 100 ∧
       10 ≤ (jsTrim r.description).length ∧
       (jsTrim r.description).length ≤ 1000 ∧
       r.startTime < r.endTime ∧
       3 ≤ (jsTrim r.location).length ∧ (jsTrim r.location).length ≤ 200)) ∧
    ((0 < e.title.length ∧ e.title.length ≤ 200 ∧
      0 < e.description.length ∧ e.description.length ≤ 2000 ∧
      now < e.startTime ∧ e.startTime < e.endTime) →
      eventSchemaCheck now e = .ok e) := by
  refine ⟨validateCreateEvent_eq_nil_iff r, ?_⟩
  rintro ⟨h1, h2, h3, h4, h5, h6⟩
  unfold eventSchemaCheck
  split_ifs <;> first | rfl | omega

/-- Witness for C8 amended: a well-formed request passes the route
validator, and the schema alone accepts a 150-character title. -/
theorem create_event_field_bounds_witness :
    validateCreateEvent (CreateEventReq.mk "Spring Concert"
      "live music on the quad" "Main Quad" 100 200 1) = [] ∧
    eventSchemaCheck 0 (Event.mk (String.mk (List.replicate 150 'a'))
      "a fine party with pizza" 100 200 1 []) =
      .ok (Event.mk (String.mk (List.replicate 150 'a'))
        "a fine party with pizza" 100 200 1 []) :=
  ⟨(create_event_field_bounds (CreateEventReq.mk "Spring Concert"
      "live music on the quad" "Main Quad" 100 200 1) 0
      (Event.mk "x" "desc" 1 2 1 [])).1.2 (by decide),
   (create_event_field_bounds (CreateEventReq.mk "t" "d" "l" 0 1 1) 0
      (Event.mk (String.mk (List.replicate 150 'a'))
        "a fine party with pizza" 100 200 1 [])).2 (by decide)⟩

end Social
